import Mathlib

/-!
Verification of the nba-stats-pipeline repository.

The development shallowly embeds the two source files
(`src/nba_stats.py` and `src/lambda_function.py`) into Lean:

* Python values flowing through `convert_floats_to_decimals` are modelled
  by the mutual inductive `PyVal` / `PyEntries` / `PyElems`.  A Python
  float is represented by the decimal string `str(x)` produces for it, so
  `Decimal(str(x))` is modelled as `PyVal.decimal` of that same string.
  Mapping keys are arbitrary values, exactly as in Python dicts.
* Exceptions are modelled with `Except`; a Python function that can raise
  is embedded as a function into `Except String _`, and a try/except block
  as a match on that result.
* External collaborators (the HTTP transport, the DynamoDB store) are
  modelled by explicit outcome data fed in as arguments, following their
  documented contracts (`raise_for_status` raises exactly for status
  codes at least 400; `create_table` raises `ResourceInUseException`
  exactly when the table already exists).
-/

mutual

inductive PyVal : Type where
  | float (r : String)
  | int (n : Int)
  | str (s : String)
  | bool (b : Bool)
  | none
  | decimal (r : String)
  | dict (entries : PyEntries)
  | list (elems : PyElems)
  | other (tag : String)
  deriving DecidableEq

inductive PyEntries : Type where
  | nil
  | cons (key : PyVal) (val : PyVal) (rest : PyEntries)
  deriving DecidableEq

inductive PyElems : Type where
  | nil
  | cons (head : PyVal) (tail : PyElems)
  deriving DecidableEq

end

mutual

/-- Embedding of `NBAStatsPipeline.convert_floats_to_decimals`:
floats become string-backed decimals, dicts recurse on the values only
(the dict comprehension in the source copies keys verbatim), lists
recurse on the elements, everything else is returned unchanged. -/
def convert_floats_to_decimals : PyVal → PyVal
  | .float r => .decimal r
  | .dict entries => .dict (convertEntries entries)
  | .list elems => .list (convertElems elems)
  | .int n => .int n
  | .str s => .str s
  | .bool b => .bool b
  | .none => .none
  | .decimal r => .decimal r
  | .other t => .other t

def convertEntries : PyEntries → PyEntries
  | .nil => .nil
  | .cons k v rest => .cons k (convert_floats_to_decimals v) (convertEntries rest)

def convertElems : PyElems → PyElems
  | .nil => .nil
  | .cons v rest => .cons (convert_floats_to_decimals v) (convertElems rest)

end

mutual

/-- Number of float leaves anywhere in a value, keys included. -/
def floatCount : PyVal → Nat
  | .float _ => 1
  | .dict entries => floatCountEntries entries
  | .list elems => floatCountElems elems
  | _ => 0

def floatCountEntries : PyEntries → Nat
  | .nil => 0
  | .cons k v rest => floatCount k + floatCount v + floatCountEntries rest

def floatCountElems : PyElems → Nat
  | .nil => 0
  | .cons v rest => floatCount v + floatCountElems rest

end

mutual

/-- Number of float leaves that sit inside a mapping key (at any depth):
these are exactly the positions the dict comprehension copies verbatim. -/
def keyFloatCount : PyVal → Nat
  | .dict entries => keyFloatCountEntries entries
  | .list elems => keyFloatCountElems elems
  | _ => 0

def keyFloatCountEntries : PyEntries → Nat
  | .nil => 0
  | .cons k v rest => floatCount k + keyFloatCount v + keyFloatCountEntries rest

def keyFloatCountElems : PyElems → Nat
  | .nil => 0
  | .cons v rest => keyFloatCount v + keyFloatCountElems rest

end

def isFloat : PyVal → Bool
  | .float _ => true
  | _ => false

def isDict : PyVal → Bool
  | .dict _ => true
  | _ => false

def isList : PyVal → Bool
  | .list _ => true
  | _ => false

mutual

theorem floatCount_convert : ∀ v : PyVal,
    floatCount (convert_floats_to_decimals v) = keyFloatCount v
  | .float r => rfl
  | .dict entries => by
      simp only [convert_floats_to_decimals, floatCount, keyFloatCount,
        floatCountEntries_convert entries]
  | .list elems => by
      simp only [convert_floats_to_decimals, floatCount, keyFloatCount,
        floatCountElems_convert elems]
  | .int n => rfl
  | .str s => rfl
  | .bool b => rfl
  | .none => rfl
  | .decimal r => rfl
  | .other t => rfl

theorem floatCountEntries_convert : ∀ es : PyEntries,
    floatCountEntries (convertEntries es) = keyFloatCountEntries es
  | .nil => rfl
  | .cons k v rest => by
      simp only [convertEntries, floatCountEntries, keyFloatCountEntries,
        floatCount_convert v, floatCountEntries_convert rest]

theorem floatCountElems_convert : ∀ es : PyElems,
    floatCountElems (convertElems es) = keyFloatCountElems es
  | .nil => rfl
  | .cons v rest => by
      simp only [convertElems, floatCountElems, keyFloatCountElems,
        floatCount_convert v, floatCountElems_convert rest]

end

mutual

theorem convert_convert : ∀ v : PyVal,
    convert_floats_to_decimals (convert_floats_to_decimals v) =
      convert_floats_to_decimals v
  | .float r => rfl
  | .dict entries => by
      simp only [convert_floats_to_decimals, convertEntries_convert entries]
  | .list elems => by
      simp only [convert_floats_to_decimals, convertElems_convert elems]
  | .int n => rfl
  | .str s => rfl
  | .bool b => rfl
  | .none => rfl
  | .decimal r => rfl
  | .other t => rfl

theorem convertEntries_convert : ∀ es : PyEntries,
    convertEntries (convertEntries es) = convertEntries es
  | .nil => rfl
  | .cons k v rest => by
      simp only [convertEntries, convert_convert v, convertEntries_convert rest]

theorem convertElems_convert : ∀ es : PyElems,
    convertElems (convertElems es) = convertElems es
  | .nil => rfl
  | .cons v rest => by
      simp only [convertElems, convert_convert v, convertElems_convert rest]

end

mutual

theorem convert_eq_self_of_floatCount_zero : ∀ v : PyVal,
    floatCount v = 0 → convert_floats_to_decimals v = v
  | .float r => by intro h; simp [floatCount] at h
  | .dict entries => by
      intro h
      simp only [floatCount] at h
      simp only [convert_floats_to_decimals,
        convertEntries_eq_self_of_floatCount_zero entries h]
  | .list elems => by
      intro h
      simp only [floatCount] at h
      simp only [convert_floats_to_decimals,
        convertElems_eq_self_of_floatCount_zero elems h]
  | .int n => fun _ => rfl
  | .str s => fun _ => rfl
  | .bool b => fun _ => rfl
  | .none => fun _ => rfl
  | .decimal r => fun _ => rfl
  | .other t => fun _ => rfl

theorem convertEntries_eq_self_of_floatCount_zero : ∀ es : PyEntries,
    floatCountEntries es = 0 → convertEntries es = es
  | .nil => fun _ => rfl
  | .cons k v rest => by
      intro h
      simp only [floatCountEntries, Nat.add_eq_zero] at h
      simp only [convertEntries,
        convert_eq_self_of_floatCount_zero v h.1.2,
        convertEntries_eq_self_of_floatCount_zero rest h.2]

theorem convertElems_eq_self_of_floatCount_zero : ∀ es : PyElems,
    floatCountElems es = 0 → convertElems es = es
  | .nil => fun _ => rfl
  | .cons v rest => by
      intro h
      simp only [floatCountElems, Nat.add_eq_zero] at h
      simp only [convertElems,
        convert_eq_self_of_floatCount_zero v h.1,
        convertElems_eq_self_of_floatCount_zero rest h.2]

end

/-- A fetched team record, with the fields `store_team_stats` reads.
`City` and `Name` are strings (they are interpolated into an f-string);
the remaining fields are copied verbatim into the item, so they stay
arbitrary Python values. -/
structure TeamRecord : Type where
  TeamID : PyVal
  Key : PyVal
  City : String
  Name : String
  Conference : PyVal
  Division : PyVal
  Wins : PyVal
  Losses : PyVal
  Percentage : PyVal
  PointsPerGameFor : PyVal
  PointsPerGameAgainst : PyVal
  HomeWins : PyVal
  HomeLosses : PyVal
  AwayWins : PyVal
  AwayLosses : PyVal
  LastTenWins : PyVal
  LastTenLosses : PyVal
  deriving DecidableEq

/-- One DynamoDB item as built inside the batch-writer loop. -/
structure StoredItem : Type where
  TeamID : PyVal
  Timestamp : String
  TeamKey : PyVal
  TeamName : String
  Conference : PyVal
  Division : PyVal
  Stats : PyVal
  LastUpdated : String
  deriving DecidableEq

/-- The literal stats sub-dict passed to `convert_floats_to_decimals`
inside `store_team_stats`. -/
def statsEntries (team : TeamRecord) : PyEntries :=
  .cons (.str "Wins") team.Wins
    (.cons (.str "Losses") team.Losses
      (.cons (.str "Percentage") team.Percentage
        (.cons (.str "PointsPerGameFor") team.PointsPerGameFor
          (.cons (.str "PointsPerGameAgainst") team.PointsPerGameAgainst
            (.cons (.str "HomeWins") team.HomeWins
              (.cons (.str "HomeLosses") team.HomeLosses
                (.cons (.str "AwayWins") team.AwayWins
                  (.cons (.str "AwayLosses") team.AwayLosses
                    (.cons (.str "LastTenWins") team.LastTenWins
                      (.cons (.str "LastTenLosses") team.LastTenLosses
                        .nil))))))))))

/-- Body of the loop in `store_team_stats`: builds one item. `ts` is the
batch timestamp captured once before the loop; `lastUpdated` is the
per-item `datetime.now().isoformat()` value. -/
def buildTeamItem (ts : String) (lastUpdated : String) (team : TeamRecord) :
    StoredItem :=
  { TeamID := team.TeamID
    Timestamp := ts
    TeamKey := team.Key
    TeamName := team.City ++ " " ++ team.Name
    Conference := team.Conference
    Division := team.Division
    Stats := convert_floats_to_decimals (.dict (statsEntries team))
    LastUpdated := lastUpdated }

/-- The loop of `store_team_stats`: the i-th record gets the i-th value
of the per-item clock as its `LastUpdated`. -/
def storeTeamItems (ts : String) (clock : Nat → String) :
    List TeamRecord → Nat → List StoredItem
  | [], _ => []
  | team :: rest, i =>
      buildTeamItem ts (clock i) team :: storeTeamItems ts clock rest (i + 1)

/-- Embedding of `NBAStatsPipeline.store_team_stats`: the batch timestamp
`ts` models the single `datetime.now().isoformat()` taken before the
loop, `clock i` the per-item `datetime.now().isoformat()` of iteration
i.  The result is the sequence of items handed to `batch.put_item`, in
loop order. -/
def store_team_stats (ts : String) (clock : Nat → String)
    (statsData : List TeamRecord) : List StoredItem :=
  storeTeamItems ts clock statsData 0

/-- A response obtained from `requests.get`: its HTTP status and the
outcome of `response.json()` (error when the body is not a JSON array of
team objects). -/
structure HttpResponse : Type where
  status : Nat
  jsonBody : Except String (List TeamRecord)

/-- Outcome of the `requests.get` call itself: either the transport
raises (connection error and friends), or a response comes back. -/
inductive HttpOutcome : Type where
  | connectionError (msg : String)
  | response (resp : HttpResponse)

/-- Documented contract of `response.raise_for_status`: it raises an
`HTTPError` exactly for status codes of 400 and above. -/
def raise_for_status (resp : HttpResponse) : Except String Unit :=
  if 400 ≤ resp.status then
    Except.error ("HTTPError " ++ toString resp.status)
  else
    Except.ok ()

/-- The try-block of `fetch_player_stats`: GET, `raise_for_status`,
then parse the body. Every raise becomes an `Except.error`. -/
def fetchAttempt (o : HttpOutcome) : Except String (List TeamRecord) :=
  match o with
  | .connectionError m => Except.error m
  | .response resp =>
      match raise_for_status resp with
      | Except.error e => Except.error e
      | Except.ok _ => resp.jsonBody

/-- Embedding of `NBAStatsPipeline.fetch_player_stats`: both except
clauses of the source (RequestException and the catch-all) log and
return `None`, so any error in the attempt maps to `Option.none`. -/
def fetch_player_stats (o : HttpOutcome) : Option (List TeamRecord) :=
  match fetchAttempt o with
  | Except.ok data => Option.some data
  | Except.error _ => Option.none

/-- Handle returned by the provisioner (`self.dynamodb.Table(name)` or
the freshly created table): identified by the table name. -/
structure TableHandle : Type where
  name : String
  deriving DecidableEq

/-- The set of tables existing in the DynamoDB store. -/
structure StoreState : Type where
  tables : List String
  deriving DecidableEq

/-- Possible results of `dynamodb.create_table`. -/
inductive CreateTableResult : Type where
  | created
  | resourceInUse
  deriving DecidableEq

/-- Documented contract of `dynamodb.create_table`: raises
`ResourceInUseException` exactly when the table already exists,
otherwise creates it. -/
def create_table (s : StoreState) (tableName : String) :
    CreateTableResult × StoreState :=
  if tableName ∈ s.tables then
    (CreateTableResult.resourceInUse, s)
  else
    (CreateTableResult.created, StoreState.mk (tableName :: s.tables))

/-- Embedding of `NBAStatsPipeline.setup_dynamodb_table`.  `fault`
models any exogenous exception (permissions, network, malformed schema)
raised during the attempt; the outer except clause logs it and
re-raises.  Without a fault, the inner try catches exactly
`ResourceInUseException` and returns a handle to the existing table;
a successful creation returns the new table. -/
def setup_dynamodb_table (tableName : String) (fault : Option String)
    (s : StoreState) : Except String (TableHandle × StoreState) :=
  match fault with
  | Option.some e => Except.error e
  | Option.none =>
      match create_table s tableName with
      | (CreateTableResult.created, s2) =>
          Except.ok (TableHandle.mk tableName, s2)
      | (CreateTableResult.resourceInUse, s2) =>
          Except.ok (TableHandle.mk tableName, s2)

/-- Result dictionary returned by `lambda_handler`. -/
structure LambdaResult : Type where
  statusCode : Nat
  body : String
  deriving DecidableEq

/-- Behaviour of the external collaborators during one invocation of
`lambda_handler`: the outcome of pipeline construction, of
`setup_dynamodb_table`, of the HTTP fetch, and of the DynamoDB batch
write inside `store_team_stats`. -/
structure LambdaEnv : Type where
  initResult : Except String Unit
  setupResult : Except String Unit
  fetchResult : HttpOutcome
  writeResult : Except String Unit

/-- Invocation result together with the record sequences that were
actually passed to `store_team_stats` (the persist path). -/
structure LambdaOutcome : Type where
  result : LambdaResult
  persistCalls : List (List TeamRecord)

/-- Model of `json.dumps` on a plain message string (none of the
messages in the source contains characters that need escaping). -/
def jsonDumps (s : String) : String := "\"" ++ s ++ "\""

/-- Embedding of `lambda_handler`, tracking what reaches the persister.
The try/except is modelled by matching on each `Except` outcome: any
error e becomes the catch-all result with body `Error: e`.  The source
guard `if stats:` is Python truthiness, false both for `None` and for
the empty list. -/
def lambda_handler_run (env : LambdaEnv) : LambdaOutcome :=
  match env.initResult with
  | Except.error e =>
      LambdaOutcome.mk (LambdaResult.mk 500 (jsonDumps ("Error: " ++ e))) []
  | Except.ok _ =>
      match env.setupResult with
      | Except.error e =>
          LambdaOutcome.mk (LambdaResult.mk 500 (jsonDumps ("Error: " ++ e))) []
      | Except.ok _ =>
          match fetch_player_stats env.fetchResult with
          | Option.none =>
              LambdaOutcome.mk
                (LambdaResult.mk 500 (jsonDumps "Failed to fetch NBA stats")) []
          | Option.some stats =>
              if stats.isEmpty then
                LambdaOutcome.mk
                  (LambdaResult.mk 500 (jsonDumps "Failed to fetch NBA stats"))
                  []
              else
                match env.writeResult with
                | Except.error e =>
                    LambdaOutcome.mk
                      (LambdaResult.mk 500 (jsonDumps ("Error: " ++ e)))
                      [stats]
                | Except.ok _ =>
                    LambdaOutcome.mk
                      (LambdaResult.mk 200
                        (jsonDumps "Successfully updated NBA stats"))
                      [stats]

/-- The invocation result of `lambda_handler`. -/
def lambda_handler (env : LambdaEnv) : LambdaResult :=
  (lambda_handler_run env).result

/-- The body string contains `msg` as a contiguous substring. -/
def msgContains (body msg : String) : Prop :=
  ∃ pre post, body = pre ++ msg ++ post

theorem msgContains_jsonDumps (msg : String) :
    msgContains (jsonDumps msg) msg :=
  ⟨"\"", "\"", rfl⟩

theorem storeTeamItems_spec (ts : String) (clock : Nat → String) :
    ∀ (records : List TeamRecord) (i : Nat),
      (storeTeamItems ts clock records i).length = records.length ∧
      List.Forall₂
        (fun t item => item.Timestamp = ts ∧
          item.TeamName = t.City ++ " " ++ t.Name)
        records (storeTeamItems ts clock records i)
  | [], _ => ⟨rfl, List.Forall₂.nil⟩
  | team :: rest, i => by
      obtain ⟨hl, hf⟩ := storeTeamItems_spec ts clock rest (i + 1)
      exact ⟨by simp [storeTeamItems, hl], List.Forall₂.cons ⟨rfl, rfl⟩ hf⟩

/-- The sample record of the end-to-end scenario in the spec. -/
def sampleTeam : TeamRecord :=
  { TeamID := PyVal.int 1
    Key := PyVal.str "BOS"
    City := "Boston"
    Name := "Celtics"
    Conference := PyVal.str "East"
    Division := PyVal.str "Atlantic"
    Wins := PyVal.int 50
    Losses := PyVal.int 32
    Percentage := PyVal.float "0.6097"
    PointsPerGameFor := PyVal.float "117.9"
    PointsPerGameAgainst := PyVal.float "111.4"
    HomeWins := PyVal.int 30
    HomeLosses := PyVal.int 11
    AwayWins := PyVal.int 20
    AwayLosses := PyVal.int 21
    LastTenWins := PyVal.int 7
    LastTenLosses := PyVal.int 3 }

/-- Invocation environment where the remote API answers HTTP 500. -/
def envFetchFail : LambdaEnv :=
  { initResult := Except.ok ()
    setupResult := Except.ok ()
    fetchResult := HttpOutcome.response
      (HttpResponse.mk 500 (Except.error "body not read"))
    writeResult := Except.ok () }

/-- Invocation environment for a fully successful run. -/
def envSuccess : LambdaEnv :=
  { initResult := Except.ok ()
    setupResult := Except.ok ()
    fetchResult := HttpOutcome.response
      (HttpResponse.mk 200 (Except.ok [sampleTeam]))
    writeResult := Except.ok () }

/-- Invocation environment where the fetch succeeds with an empty
JSON array. -/
def envEmptyFetch : LambdaEnv :=
  { initResult := Except.ok ()
    setupResult := Except.ok ()
    fetchResult := HttpOutcome.response
      (HttpResponse.mk 200 (Except.ok []))
    writeResult := Except.ok () }

/-- Claim C1, counterexample: a float used as a mapping key is copied
verbatim by the dict comprehension, so converting the Python dict with
the single float key 0.5 mapped to 3 leaves one float in the output,
refuting the claim that zero floating-point numbers remain for every
input. -/
theorem convert_float_dict_key_survives :
    floatCount (convert_floats_to_decimals
      (PyVal.dict (PyEntries.cons (PyVal.float "0.5") (PyVal.int 3)
        PyEntries.nil))) ≠ 0 := by decide

/-- Claim C1 (amended): the floats remaining after
`convert_floats_to_decimals` are exactly the floats sitting in
mapping-key position; every float in mapping-value or sequence-element
position becomes the string-backed decimal of the very same decimal
string, unrounded, and non-float leaves (integers, strings, booleans,
null) are left untouched. -/
theorem convert_floats_remaining_iff_in_keys (v : PyVal) :
    floatCount (convert_floats_to_decimals v) = keyFloatCount v ∧
    (∀ r, convert_floats_to_decimals (PyVal.float r) = PyVal.decimal r) ∧
    (∀ n, convert_floats_to_decimals (PyVal.int n) = PyVal.int n) ∧
    (∀ s, convert_floats_to_decimals (PyVal.str s) = PyVal.str s) ∧
    (∀ b, convert_floats_to_decimals (PyVal.bool b) = PyVal.bool b) ∧
    convert_floats_to_decimals PyVal.none = PyVal.none :=
  ⟨floatCount_convert v, fun _ => rfl, fun _ => rfl, fun _ => rfl,
    fun _ => rfl, rfl⟩

/-- Claim C6: `convert_floats_to_decimals` is idempotent — applying it
twice yields the same value as applying it once. -/
theorem convert_floats_to_decimals_idempotent (v : PyVal) :
    convert_floats_to_decimals (convert_floats_to_decimals v) =
      convert_floats_to_decimals v :=
  convert_convert v

/-- Claim C9: `convert_floats_to_decimals` is total (it is a total Lean
function, defined for every `PyVal` including the `other` constructor
standing for unsupported or unexpected Python types), and every value
that is not a float, mapping, or sequence passes through unchanged. -/
theorem convert_floats_to_decimals_total_passthrough (v : PyVal)
    (h1 : isFloat v = false) (h2 : isDict v = false)
    (h3 : isList v = false) :
    convert_floats_to_decimals v = v := by
  cases v
  case float r => simp [isFloat] at h1
  case dict entries => simp [isDict] at h2
  case list elems => simp [isList] at h3
  all_goals rfl

/-- Witness for claim C9, at a value of unexpected type. -/
theorem convert_total_passthrough_witness :
    isFloat (PyVal.other "socket") = false ∧
    isDict (PyVal.other "socket") = false ∧
    isList (PyVal.other "socket") = false ∧
    convert_floats_to_decimals (PyVal.other "socket") =
      PyVal.other "socket" :=
  ⟨rfl, rfl, rfl,
    convert_floats_to_decimals_total_passthrough (PyVal.other "socket")
      rfl rfl rfl⟩

/-- Claim C10: on inputs containing no float anywhere,
`convert_floats_to_decimals` is the identity, so mapping keys and order,
sequence length and order, and every non-float leaf are preserved. -/
theorem convert_identity_on_float_free (v : PyVal)
    (h : floatCount v = 0) :
    convert_floats_to_decimals v = v :=
  convert_eq_self_of_floatCount_zero v h

/-- Nested float-free sample value used by the claim C10 witness. -/
def sampleFloatFree : PyVal :=
  PyVal.dict (PyEntries.cons (PyVal.str "a") (PyVal.int 3)
    (PyEntries.cons (PyVal.str "b")
      (PyVal.list (PyElems.cons (PyVal.str "x")
        (PyElems.cons PyVal.none PyElems.nil)))
      PyEntries.nil))

/-- Witness for claim C10. -/
theorem convert_identity_on_float_free_witness :
    floatCount sampleFloatFree = 0 ∧
    convert_floats_to_decimals sampleFloatFree = sampleFloatFree :=
  ⟨by decide, convert_identity_on_float_free sampleFloatFree (by decide)⟩

/-- Claim C2: for every sequence of M input records, `store_team_stats`
submits exactly M items to the batch writer, every item carries the one
batch timestamp, and each TeamName is the City and the Name of its
record joined by a single space (`List.Forall₂` relates the records to
the submitted items pointwise and in order). -/
theorem store_team_stats_count_timestamp_teamname (ts : String)
    (clock : Nat → String) (records : List TeamRecord) :
    (store_team_stats ts clock records).length = records.length ∧
    List.Forall₂
      (fun t item => item.Timestamp = ts ∧
        item.TeamName = t.City ++ " " ++ t.Name)
      records (store_team_stats ts clock records) :=
  storeTeamItems_spec ts clock records 0

/-- Claim C4: every failure mode of the fetcher — transport error,
non-success HTTP status (400 and above, per `raise_for_status`), or a
body-parse error — yields `Option.none` rather than an exception (the
embedding returns an `Option`, never an `Except.error`, so nothing
propagates to the caller); a successful response whose body parses to a
sequence of records returns exactly that sequence, hence one of the
same length. -/
theorem fetch_player_stats_failure_none_success_length :
    (∀ m, fetch_player_stats (HttpOutcome.connectionError m) =
      Option.none) ∧
    (∀ resp : HttpResponse, 400 ≤ resp.status →
      fetch_player_stats (HttpOutcome.response resp) = Option.none) ∧
    (∀ resp : HttpResponse, ∀ m, resp.jsonBody = Except.error m →
      fetch_player_stats (HttpOutcome.response resp) = Option.none) ∧
    (∀ resp : HttpResponse, ∀ body, resp.status < 400 →
      resp.jsonBody = Except.ok body →
      fetch_player_stats (HttpOutcome.response resp) =
        Option.some body) := by
  refine ⟨fun m => rfl, ?_, ?_, ?_⟩
  · intro resp h
    simp [fetch_player_stats, fetchAttempt, raise_for_status, h]
  · intro resp m h
    by_cases h4 : 400 ≤ resp.status
    · simp [fetch_player_stats, fetchAttempt, raise_for_status, h4]
    · simp [fetch_player_stats, fetchAttempt, raise_for_status, h4, h]
  · intro resp body h1 h2
    simp [fetch_player_stats, fetchAttempt, raise_for_status,
      Nat.not_le.mpr h1, h2]

/-- Witness for claim C4: connection error, HTTP 404, parse error, and
a successful two-hundred response with an empty array. -/
theorem fetch_player_stats_witness :
    fetch_player_stats (HttpOutcome.connectionError "connection refused")
        = Option.none ∧
    fetch_player_stats (HttpOutcome.response
        (HttpResponse.mk 404 (Except.error "body not read")))
      = Option.none ∧
    fetch_player_stats (HttpOutcome.response
        (HttpResponse.mk 200 (Except.error "invalid JSON")))
      = Option.none ∧
    fetch_player_stats (HttpOutcome.response
        (HttpResponse.mk 200 (Except.ok [sampleTeam])))
      = Option.some [sampleTeam] :=
  ⟨fetch_player_stats_failure_none_success_length.1 "connection refused",
    fetch_player_stats_failure_none_success_length.2.1
      (HttpResponse.mk 404 (Except.error "body not read")) (by decide),
    fetch_player_stats_failure_none_success_length.2.2.1
      (HttpResponse.mk 200 (Except.error "invalid JSON")) "invalid JSON" rfl,
    fetch_player_stats_failure_none_success_length.2.2.2
      (HttpResponse.mk 200 (Except.ok [sampleTeam])) [sampleTeam]
      (by decide) rfl⟩

/-- Claim C5: the provisioner is idempotent.  When the table already
exists, creation fails with ResourceInUseException and
`setup_dynamodb_table` treats that as success, returning a handle to the
existing table with the store unchanged; after any successful call a
second call succeeds as well with the store unchanged; any exogenous
fault is re-raised to the caller (logging is a side effect outside the
embedding). -/
theorem setup_dynamodb_table_idempotent (tableName : String)
    (s : StoreState) :
    (tableName ∈ s.tables →
      setup_dynamodb_table tableName Option.none s =
        Except.ok (TableHandle.mk tableName, s)) ∧
    (∀ h1 s1, setup_dynamodb_table tableName Option.none s =
        Except.ok (h1, s1) →
      setup_dynamodb_table tableName Option.none s1 =
        Except.ok (TableHandle.mk tableName, s1)) ∧
    (∀ e, setup_dynamodb_table tableName (Option.some e) s =
      Except.error e) := by
  refine ⟨?_, ?_, fun e => rfl⟩
  · intro h
    simp [setup_dynamodb_table, create_table, h]
  · intro h1 s1 hcall
    by_cases hmem : tableName ∈ s.tables
    · simp only [setup_dynamodb_table, create_table, if_pos hmem,
        Except.ok.injEq, Prod.mk.injEq] at hcall
      obtain ⟨-, rfl⟩ := hcall
      simp [setup_dynamodb_table, create_table, hmem]
    · simp only [setup_dynamodb_table, create_table, if_neg hmem,
        Except.ok.injEq, Prod.mk.injEq] at hcall
      obtain ⟨-, rfl⟩ := hcall
      simp [setup_dynamodb_table, create_table]

/-- Witness for claim C5: the already-exists path, two successive calls
against an initially empty store, and a re-raised fault. -/
theorem setup_dynamodb_table_witness :
    ("nba-player-stats" ∈ (StoreState.mk ["nba-player-stats"]).tables ∧
      setup_dynamodb_table "nba-player-stats" Option.none
          (StoreState.mk ["nba-player-stats"]) =
        Except.ok (TableHandle.mk "nba-player-stats",
          StoreState.mk ["nba-player-stats"])) ∧
    (setup_dynamodb_table "nba-player-stats" Option.none
          (StoreState.mk []) =
        Except.ok (TableHandle.mk "nba-player-stats",
          StoreState.mk ["nba-player-stats"]) ∧
      setup_dynamodb_table "nba-player-stats" Option.none
          (StoreState.mk ["nba-player-stats"]) =
        Except.ok (TableHandle.mk "nba-player-stats",
          StoreState.mk ["nba-player-stats"])) ∧
    setup_dynamodb_table "nba-player-stats" (Option.some "AccessDenied")
        (StoreState.mk []) =
      Except.error "AccessDenied" := by
  have hfresh : setup_dynamodb_table "nba-player-stats" Option.none
      (StoreState.mk []) =
      Except.ok (TableHandle.mk "nba-player-stats",
        StoreState.mk ["nba-player-stats"]) := by
    simp [setup_dynamodb_table, create_table]
  refine ⟨⟨by simp, (setup_dynamodb_table_idempotent "nba-player-stats"
    (StoreState.mk ["nba-player-stats"])).1 (by simp)⟩,
    ⟨hfresh, (setup_dynamodb_table_idempotent "nba-player-stats"
      (StoreState.mk [])).2.1 (TableHandle.mk "nba-player-stats")
      (StoreState.mk ["nba-player-stats"]) hfresh⟩,
    (setup_dynamodb_table_idempotent "nba-player-stats"
      (StoreState.mk [])).2.2 "AccessDenied"⟩

/-- Claim C3: with construction and provisioning succeeding, an
invocation whose fetch returns null yields status code 500 with a body
containing `Failed to fetch NBA stats`, and a fully successful run
(fetch returns data, persist succeeds) yields status code 200 with a
body containing `Successfully updated NBA stats`. -/
theorem lambda_handler_fetch_fail_and_success (env : LambdaEnv)
    (hinit : env.initResult = Except.ok ())
    (hsetup : env.setupResult = Except.ok ()) :
    (fetch_player_stats env.fetchResult = Option.none →
      (lambda_handler env).statusCode = 500 ∧
      msgContains (lambda_handler env).body "Failed to fetch NBA stats") ∧
    (∀ stats, fetch_player_stats env.fetchResult = Option.some stats →
      stats ≠ [] → env.writeResult = Except.ok () →
      (lambda_handler env).statusCode = 200 ∧
      msgContains (lambda_handler env).body
        "Successfully updated NBA stats") := by
  constructor
  · intro hfetch
    simp only [lambda_handler, lambda_handler_run, hinit, hsetup, hfetch]
    exact ⟨by trivial, msgContains_jsonDumps "Failed to fetch NBA stats"⟩
  · intro stats hfetch hne hwrite
    have hne2 : stats.isEmpty = false := by
      cases stats
      · exact absurd rfl hne
      · rfl
    simp only [lambda_handler, lambda_handler_run, hinit, hsetup, hfetch,
      hne2, Bool.false_eq_true, if_false, hwrite]
    exact ⟨by trivial, msgContains_jsonDumps "Successfully updated NBA stats"⟩

/-- Witness for claim C3: a simulated HTTP 500 from the remote API, and
a fully successful run over the sample record. -/
theorem lambda_handler_fetch_fail_and_success_witness :
    ((lambda_handler envFetchFail).statusCode = 500 ∧
      msgContains (lambda_handler envFetchFail).body
        "Failed to fetch NBA stats") ∧
    ((lambda_handler envSuccess).statusCode = 200 ∧
      msgContains (lambda_handler envSuccess).body
        "Successfully updated NBA stats") :=
  ⟨(lambda_handler_fetch_fail_and_success envFetchFail rfl rfl).1 rfl,
    (lambda_handler_fetch_fail_and_success envSuccess rfl rfl).2
      [sampleTeam] rfl (List.cons_ne_nil sampleTeam []) rfl⟩

/-- Claim C8: for every environment the entry point returns a result
(the embedding is a total function: every exception of the try block is
matched and mapped to the catch-all answer, so nothing propagates), and
that result is status 200 with the success message, or status 500 with
the fetch-failure message or with `Error:` followed by the error string
— never any other status code. -/
theorem lambda_handler_two_status_codes (env : LambdaEnv) :
    ((lambda_handler env).statusCode = 200 ∧
      (lambda_handler env).body =
        jsonDumps "Successfully updated NBA stats") ∨
    ((lambda_handler env).statusCode = 500 ∧
      ((lambda_handler env).body = jsonDumps "Failed to fetch NBA stats" ∨
        ∃ e, (lambda_handler env).body = jsonDumps ("Error: " ++ e))) := by
  obtain ⟨i, s, f, w⟩ := env
  simp only [lambda_handler, lambda_handler_run]
  cases i with
  | error e => exact Or.inr ⟨rfl, Or.inr ⟨e, rfl⟩⟩
  | ok u =>
  cases s with
  | error e => exact Or.inr ⟨rfl, Or.inr ⟨e, rfl⟩⟩
  | ok u2 =>
  cases hf : fetch_player_stats f with
  | none => exact Or.inr ⟨rfl, Or.inl rfl⟩
  | some stats =>
  cases stats with
  | nil => exact Or.inr ⟨rfl, Or.inl rfl⟩
  | cons t rest =>
  cases w with
  | error e => exact Or.inr ⟨rfl, Or.inr ⟨e, rfl⟩⟩
  | ok u3 => exact Or.inl ⟨rfl, rfl⟩

/-- Claim C7, counterexample: with every collaborator succeeding and the
fetch returning the empty sequence, the entry point never calls the
persister and reports a fetch failure, rather than passing the empty
sequence on as a zero-item batch write. -/
theorem empty_fetch_not_passed_to_persister :
    (lambda_handler_run envEmptyFetch).persistCalls = [] ∧
    (lambda_handler_run envEmptyFetch).result.statusCode = 500 ∧
    (lambda_handler_run envEmptyFetch).result.body =
      jsonDumps "Failed to fetch NBA stats" :=
  ⟨rfl, rfl, rfl⟩

/-- Claim C7 (amended): an empty fetched sequence is treated by the
entry point as a fetch failure — the Python guard `if stats:` is false
for the empty list, so the sequence is never passed to the persister and
the invocation returns 500 with the fetch-failure message; the persister
itself, had it been called, maps an empty record sequence to a zero-item
batch write. -/
theorem empty_fetch_treated_as_fetch_failure (env : LambdaEnv)
    (hinit : env.initResult = Except.ok ())
    (hsetup : env.setupResult = Except.ok ())
    (hfetch : fetch_player_stats env.fetchResult = Option.some []) :
    (lambda_handler_run env).persistCalls = [] ∧
    (lambda_handler env).statusCode = 500 ∧
    msgContains (lambda_handler env).body "Failed to fetch NBA stats" ∧
    (∀ ts clock, store_team_stats ts clock [] = []) := by
  simp only [lambda_handler, lambda_handler_run, hinit, hsetup, hfetch,
    List.isEmpty_nil, if_true]
  exact ⟨by trivial, by trivial,
    msgContains_jsonDumps "Failed to fetch NBA stats", fun ts clock => rfl⟩

/-- Witness for the amended claim C7. -/
theorem empty_fetch_treated_as_fetch_failure_witness :
    (lambda_handler_run envEmptyFetch).persistCalls = [] ∧
    (lambda_handler envEmptyFetch).statusCode = 500 ∧
    msgContains (lambda_handler envEmptyFetch).body
      "Failed to fetch NBA stats" ∧
    (∀ ts clock, store_team_stats ts clock [] = []) :=
  empty_fetch_treated_as_fetch_failure envEmptyFetch rfl rfl rfl
